import Mathlib

/-!
# Verification of the `AuthenticationProvider` component

Shallow embedding of `src/packages/context/src/oidcContext/AuthenticationContext.provider.tsx`
(the sole source file of this repository).

Modelling conventions:
* An async computation that reads and writes the provider's hook state and may
  reject is `OidcM α := OidcState → Except String α × OidcState`: the state
  lives in the hook and survives a thrown exception, so it is paired outside
  the `Except`.
* Promise rejection is `Except.error m` where `m` is the error message
  (`error.message` in the source).
* The four state transitions (`onLoading`, `loadUser`, `onError`,
  `unloadUser`) live in `AuthenticationContext.hooks`, which is not part of
  the provided source; they are modelled from the spec (their doc comments say
  so).  `onLogout` is only described as "notifies local state of logout
  intent", so the logout callback is parametrised by an arbitrary state
  function for it.
* The effect of `useEffect` (lines 112-126) and the React lifecycle around it
  are modelled as a small transition system `Sys`/`exec` further below.
-/

/-- Opaque user data; the provider never inspects a user beyond `!= null`,
which becomes `Option.isSome` here. -/
abbrev User := String

/-- The provider's hook state, from the spec's `OidcState` data model
(the hook implementation itself is outside the provided source). -/
structure OidcState where
  isLoading : Bool
  isAuthenticated : Bool
  error : Option String
  user : Option User
deriving DecidableEq, Repr

/-- Initial hook state at provider mount. -/
def initialOidcState : OidcState :=
  { isLoading := false, isAuthenticated := false, error := none, user := none }

/-- Modelled from the spec: `onLoading` (set isLoading = true); the body lives
in `AuthenticationContext.hooks`, which is not under `src/`. -/
def onLoading (s : OidcState) : OidcState :=
  { s with isLoading := true }

/-- Modelled from the spec: `loadUser(user)` (set user,
isAuthenticated = user != null, isLoading = false); the body lives in
`AuthenticationContext.hooks`, which is not under `src/`. -/
def loadUser (u : Option User) (s : OidcState) : OidcState :=
  { s with user := u, isAuthenticated := u.isSome, isLoading := false }

/-- Modelled from the spec: `onError(message)` (set error, isLoading = false);
the body lives in `AuthenticationContext.hooks`, which is not under `src/`. -/
def onError (m : String) (s : OidcState) : OidcState :=
  { s with error := some m, isLoading := false }

/-- Modelled from the spec: `unloadUser` (clear user, isAuthenticated = false);
the body lives in `AuthenticationContext.hooks`, which is not under `src/`. -/
def unloadUser (s : OidcState) : OidcState :=
  { s with user := none, isAuthenticated := false }

/-- A stateful async computation over the hook state: result or rejection,
paired with the state as it stands when the computation finishes or throws. -/
abbrev OidcM (α : Type) := OidcState → Except String α × OidcState

/-- JavaScript `try`/`catch` over `OidcM`: a rejection from the body is passed
(with the state at the throw point) to the handler. -/
def tryCatchM {α : Type} (body : OidcM α) (handler : String → OidcM α) : OidcM α :=
  fun s =>
    match body s with
    | (Except.ok a, s1) => (Except.ok a, s1)
    | (Except.error e, s1) => handler e s1

/-- Opaque handle to the external OIDC client instance. -/
structure UserManagerHandle where
  id : Nat
deriving DecidableEq, Repr

/-- `location`, as threaded into the action builders. -/
abbrev LocationT := String

/-- `history`, as threaded into the action builders. -/
abbrev HistoryT := String

/-- Shape of `authenticateUser`/`authenticateUserSilent`/`authenticateUserPopup`:
`(userManager, location, history) => () => Promise<void>`; the produced thunk
is modelled by its awaited outcome. -/
abbrev SignInBuilder := UserManagerHandle → LocationT → HistoryT → Unit → Except String Unit

/-- The injected service props the component destructures (provider source
lines 99-105): of the sign-in/out actions only `authenticateUserInt` and
`logoutUserInt` are taken from the props.  `authenticateUserSilentInt` is
declared in `AuthenticationProviderIntProps` (line 46) and therefore modelled
here, but — as the theorems below show — it is never read by any callback. -/
structure InjectedServices where
  authenticateUserInt : SignInBuilder
  authenticateUserSilentInt : SignInBuilder
  logoutUserInt : UserManagerHandle → Except String Unit

/-- The fixed module-level imports from `react-oidc-core` (source lines 15-16)
that the popup and silent callbacks call directly. -/
structure ModuleImports where
  authenticateUserSilent : SignInBuilder
  authenticateUserPopup : SignInBuilder

/-- `loginCallback` (source lines 133-137): `onLoading()`, a log line, then
`await authenticateUserInt(userManager, location, history)()` with no
`try`/`catch`. -/
def loginCallback (inj : InjectedServices) (um : UserManagerHandle)
    (loc : LocationT) (hist : HistoryT) : OidcM Unit :=
  fun s => (inj.authenticateUserInt um loc hist (), onLoading s)

/-- `loginPopupCallback` (source lines 139-143): `onLoading()`, a log line,
then `await authenticateUserPopup(userManager, location, history)()` — the
module import, not an injected prop; no `try`/`catch`. -/
def loginPopupCallback (imp : ModuleImports) (_inj : InjectedServices)
    (um : UserManagerHandle) (loc : LocationT) (hist : HistoryT) : OidcM Unit :=
  fun s => (imp.authenticateUserPopup um loc hist (), onLoading s)

/-- `loginSilentCallback` (source lines 145-149): `onLoading()`, a log line,
then `await authenticateUserSilent(userManager, location, history)()` — the
module import, not the declared `authenticateUserSilentInt` prop; no
`try`/`catch`. -/
def loginSilentCallback (imp : ModuleImports) (_inj : InjectedServices)
    (um : UserManagerHandle) (loc : LocationT) (hist : HistoryT) : OidcM Unit :=
  fun s => (imp.authenticateUserSilent um loc hist (), onLoading s)

/-- `logoutCallback` (source lines 151-159):
`try { onLogout(); await logoutUserInt(userManager); log } catch (error) { onError(error.message) }`.
`onLogout` is only "notifies local state of logout intent" in the spec, so it
is an arbitrary state function here. -/
def logoutCallback (onLogoutFn : OidcState → OidcState) (inj : InjectedServices)
    (um : UserManagerHandle) : OidcM Unit :=
  tryCatchM
    (fun s => (inj.logoutUserInt um, onLogoutFn s))
    (fun e => fun s => (Except.ok (), onError e s))

/-- Claim C1: if the underlying sign-out call rejects with message `m`, the
`logout()` callback completes without an exception escaping (result is
`Except.ok`) and the context error state afterwards equals `m` — for every
behaviour of the `onLogout` notification and every starting state. -/
theorem logout_absorbs_rejection_into_error_state
    (onLogoutFn : OidcState → OidcState) (inj : InjectedServices)
    (um : UserManagerHandle) (m : String) (s : OidcState)
    (h : inj.logoutUserInt um = Except.error m) :
    (logoutCallback onLogoutFn inj um s).1 = Except.ok () ∧
    ((logoutCallback onLogoutFn inj um s).2).error = some m := by
  simp [logoutCallback, tryCatchM, h, onError]

/-- Witness for C1: a sign-out that rejects with "network down" yields
`error = some "network down"` and no escaping exception. -/
theorem logout_absorbs_rejection_into_error_state_witness :
    (logoutCallback id
      { authenticateUserInt := fun _ _ _ _ => Except.ok ()
        authenticateUserSilentInt := fun _ _ _ _ => Except.ok ()
        logoutUserInt := fun _ => Except.error "network down" }
      ⟨0⟩ initialOidcState).1 = Except.ok () ∧
    ((logoutCallback id
      { authenticateUserInt := fun _ _ _ _ => Except.ok ()
        authenticateUserSilentInt := fun _ _ _ _ => Except.ok ()
        logoutUserInt := fun _ => Except.error "network down" }
      ⟨0⟩ initialOidcState).2).error = some "network down" :=
  logout_absorbs_rejection_into_error_state id
    { authenticateUserInt := fun _ _ _ _ => Except.ok ()
      authenticateUserSilentInt := fun _ _ _ _ => Except.ok ()
      logoutUserInt := fun _ => Except.error "network down" }
    ⟨0⟩ "network down" initialOidcState rfl

/-- Claim C2: a rejection of the underlying sign-in call propagates out of
`login()`, `loginSilent()` and `loginPopup()` as a rejection (it is not caught
or absorbed by the provider). -/
theorem login_rejection_propagates
    (imp : ModuleImports) (inj : InjectedServices) (um : UserManagerHandle)
    (loc : LocationT) (hist : HistoryT) (s : OidcState) (m : String) :
    (inj.authenticateUserInt um loc hist () = Except.error m →
      (loginCallback inj um loc hist s).1 = Except.error m) ∧
    (imp.authenticateUserSilent um loc hist () = Except.error m →
      (loginSilentCallback imp inj um loc hist s).1 = Except.error m) ∧
    (imp.authenticateUserPopup um loc hist () = Except.error m →
      (loginPopupCallback imp inj um loc hist s).1 = Except.error m) := by
  refine ⟨fun h => ?_, fun h => ?_, fun h => ?_⟩ <;>
    simp [loginCallback, loginSilentCallback, loginPopupCallback, h]

/-- Witness for C2: with all three underlying sign-in calls rejecting with
"denied", each callback's result is that rejection. -/
theorem login_rejection_propagates_witness :
    (loginCallback
      { authenticateUserInt := fun _ _ _ _ => Except.error "denied"
        authenticateUserSilentInt := fun _ _ _ _ => Except.ok ()
        logoutUserInt := fun _ => Except.ok () }
      ⟨0⟩ "loc" "hist" initialOidcState).1 = Except.error "denied" ∧
    (loginSilentCallback
      { authenticateUserSilent := fun _ _ _ _ => Except.error "denied"
        authenticateUserPopup := fun _ _ _ _ => Except.error "denied" }
      { authenticateUserInt := fun _ _ _ _ => Except.error "denied"
        authenticateUserSilentInt := fun _ _ _ _ => Except.ok ()
        logoutUserInt := fun _ => Except.ok () }
      ⟨0⟩ "loc" "hist" initialOidcState).1 = Except.error "denied" ∧
    (loginPopupCallback
      { authenticateUserSilent := fun _ _ _ _ => Except.error "denied"
        authenticateUserPopup := fun _ _ _ _ => Except.error "denied" }
      { authenticateUserInt := fun _ _ _ _ => Except.error "denied"
        authenticateUserSilentInt := fun _ _ _ _ => Except.ok ()
        logoutUserInt := fun _ => Except.ok () }
      ⟨0⟩ "loc" "hist" initialOidcState).1 = Except.error "denied" :=
  ⟨(login_rejection_propagates
      { authenticateUserSilent := fun _ _ _ _ => Except.error "denied"
        authenticateUserPopup := fun _ _ _ _ => Except.error "denied" }
      { authenticateUserInt := fun _ _ _ _ => Except.error "denied"
        authenticateUserSilentInt := fun _ _ _ _ => Except.ok ()
        logoutUserInt := fun _ => Except.ok () }
      ⟨0⟩ "loc" "hist" initialOidcState "denied").1 rfl,
   (login_rejection_propagates
      { authenticateUserSilent := fun _ _ _ _ => Except.error "denied"
        authenticateUserPopup := fun _ _ _ _ => Except.error "denied" }
      { authenticateUserInt := fun _ _ _ _ => Except.error "denied"
        authenticateUserSilentInt := fun _ _ _ _ => Except.ok ()
        logoutUserInt := fun _ => Except.ok () }
      ⟨0⟩ "loc" "hist" initialOidcState "denied").2.1 rfl,
   (login_rejection_propagates
      { authenticateUserSilent := fun _ _ _ _ => Except.error "denied"
        authenticateUserPopup := fun _ _ _ _ => Except.error "denied" }
      { authenticateUserInt := fun _ _ _ _ => Except.error "denied"
        authenticateUserSilentInt := fun _ _ _ _ => Except.ok ()
        logoutUserInt := fun _ => Except.ok () }
      ⟨0⟩ "loc" "hist" initialOidcState "denied").2.2 rfl⟩

/-- Claim C10: when the underlying sign-in call of `login()`, `loginSilent()`
or `loginPopup()` rejects, the only state field the provider has mutated is
`isLoading` (set true by `onLoading` before delegating): `error`, `user` and
`isAuthenticated` are unchanged, so the state remains loading with no error
recorded. -/
theorem failed_sign_in_frame_effect
    (imp : ModuleImports) (inj : InjectedServices) (um : UserManagerHandle)
    (loc : LocationT) (hist : HistoryT) (s : OidcState) (m : String)
    (_h1 : inj.authenticateUserInt um loc hist () = Except.error m)
    (_h2 : imp.authenticateUserSilent um loc hist () = Except.error m)
    (_h3 : imp.authenticateUserPopup um loc hist () = Except.error m) :
    ((loginCallback inj um loc hist s).2 = onLoading s ∧
      (loginSilentCallback imp inj um loc hist s).2 = onLoading s ∧
      (loginPopupCallback imp inj um loc hist s).2 = onLoading s) ∧
    (onLoading s).error = s.error ∧
    (onLoading s).user = s.user ∧
    (onLoading s).isAuthenticated = s.isAuthenticated ∧
    (onLoading s).isLoading = true := by
  refine ⟨⟨rfl, rfl, rfl⟩, rfl, rfl, rfl, rfl⟩

/-- Witness for C10: with every sign-in call rejecting with "denied", the
post-call state of `login()` from the initial state has an unchanged `error`,
`user` and `isAuthenticated`, and `isLoading = true`. -/
theorem failed_sign_in_frame_effect_witness :
    (loginCallback
      { authenticateUserInt := fun _ _ _ _ => Except.error "denied"
        authenticateUserSilentInt := fun _ _ _ _ => Except.ok ()
        logoutUserInt := fun _ => Except.ok () }
      ⟨0⟩ "loc" "hist" initialOidcState).2 = onLoading initialOidcState ∧
    (onLoading initialOidcState).error = initialOidcState.error ∧
    (onLoading initialOidcState).user = initialOidcState.user ∧
    (onLoading initialOidcState).isAuthenticated = initialOidcState.isAuthenticated ∧
    (onLoading initialOidcState).isLoading = true :=
  have h := failed_sign_in_frame_effect
    { authenticateUserSilent := fun _ _ _ _ => Except.error "denied"
      authenticateUserPopup := fun _ _ _ _ => Except.error "denied" }
    { authenticateUserInt := fun _ _ _ _ => Except.error "denied"
      authenticateUserSilentInt := fun _ _ _ _ => Except.ok ()
      logoutUserInt := fun _ => Except.ok () }
    ⟨0⟩ "loc" "hist" initialOidcState "denied" rfl rfl rfl
  ⟨h.1.1, h.2⟩

/-- An injected silent sign-in override that succeeds immediately: under the
claimed injection behaviour, `loginSilent()` would use it. -/
def silentOverride : SignInBuilder := fun _ _ _ _ => Except.ok ()

/-- Module imports whose silent and popup sign-in actions reject with
distinctive messages, so where each callback delegates is observable. -/
def taggedImports : ModuleImports :=
  { authenticateUserSilent := fun _ _ _ _ => Except.error "silent import used"
    authenticateUserPopup := fun _ _ _ _ => Except.error "popup import used" }

/-- Injected services carrying the silent override of `silentOverride`. -/
def overriddenServices : InjectedServices :=
  { authenticateUserInt := fun _ _ _ _ => Except.ok ()
    authenticateUserSilentInt := silentOverride
    logoutUserInt := fun _ => Except.ok () }

/-- Claim C6, evaluated at the failing input: with an injected
`authenticateUserSilentInt` that succeeds, `loginSilent()` still rejects with
the module import's outcome, and so does `loginPopup()` (for which no
injectable prop even exists); moreover the silent and popup callbacks are
entirely independent of the injected services record, so no override can take
effect. -/
theorem silent_and_popup_ignore_injected_services :
    (loginSilentCallback taggedImports overriddenServices ⟨0⟩ "loc" "hist"
      initialOidcState).1 = Except.error "silent import used" ∧
    (loginPopupCallback taggedImports overriddenServices ⟨0⟩ "loc" "hist"
      initialOidcState).1 = Except.error "popup import used" ∧
    (∀ (imp : ModuleImports) (inj inj' : InjectedServices)
        (um : UserManagerHandle) (loc : LocationT) (hist : HistoryT) (s : OidcState),
      loginSilentCallback imp inj um loc hist s =
        loginSilentCallback imp inj' um loc hist s ∧
      loginPopupCallback imp inj um loc hist s =
        loginPopupCallback imp inj' um loc hist s) :=
  ⟨rfl, rfl, fun _ _ _ _ _ _ _ => ⟨rfl, rfl⟩⟩

/-!
## The mount effect and the React lifecycle around it

`useEffect` (source lines 112-126) runs, per effect run `k`:
`onLoading(); setLoggerInt(...); addOidcEvents(); let mount = true;
userManager.getUser().then(user => { if (mount) loadUser(user); })`, and its
cleanup runs `removeOidcEvents(); mount = false;`.  The `.then` has a single
(fulfilment) argument and no `.catch`, so a rejected `getUser()` runs no
continuation at all.

The system state `Sys` tracks the hook state, the add/remove call counts, the
currently mounted effect run, the per-run `mount` flags, the per-run pending
fetches, and an append-only log of observable calls.  React's lifecycle is
the scheduler: `Step.runEffect` (setup), `Step.cleanup` (teardown), and the
event loop's later delivery of a fetch outcome (`Step.resolve` /
`Step.reject`).  Steps that React/the event loop can never issue (a second
setup without a cleanup in between, a cleanup with no active run, delivery of
an outcome for a fetch that is not pending) are modelled as no-ops, so every
step list is a valid schedule.
-/

/-- Observable calls made by the effect and the fetch continuation. -/
inductive Ev where
  | add (k : Nat)
  | startFetch (k : Nat)
  | remove (k : Nat)
  | write (k : Nat) (u : Option User)
  | skip (k : Nat)
  | rejected (k : Nat)
deriving DecidableEq, Repr

/-- System state: hook state plus effect-lifecycle bookkeeping. -/
structure Sys where
  oidc : OidcState
  adds : Nat
  removes : Nat
  activeRun : Option Nat
  nextRun : Nat
  flags : Nat → Bool
  pending : Nat → Bool
  log : List Ev

/-- Freshly mounted provider: no effect run yet. -/
def initSys : Sys :=
  { oidc := initialOidcState, adds := 0, removes := 0, activeRun := none,
    nextRun := 0, flags := fun _ => false, pending := fun _ => false, log := [] }

/-- Scheduler steps: an effect setup, its cleanup, or the event loop
delivering the outcome of run `k`'s `getUser()` fetch. -/
inductive Step where
  | runEffect
  | cleanup
  | resolve (k : Nat) (u : Option User)
  | reject (k : Nat) (m : String)

/-- One scheduler step.  Setup (lines 113-121): `onLoading()`, `setLoggerInt`
(no modelled state), `addOidcEvents()`, `mount = true`, start the fetch.
Cleanup (lines 122-125): `removeOidcEvents()`, `mount = false`.  Fulfilment of
run `k`'s fetch (lines 117-121): `if (mount) loadUser(user)`.  Rejection: no
handler is attached, so nothing runs. -/
def exec (s : Sys) : Step → Sys
  | Step.runEffect =>
    match s.activeRun with
    | some _ => s
    | none =>
      let k := s.nextRun
      { s with oidc := onLoading s.oidc,
               adds := s.adds + 1,
               activeRun := some k,
               nextRun := k + 1,
               flags := fun j => if j = k then true else s.flags j,
               pending := fun j => if j = k then true else s.pending j,
               log := s.log ++ [Ev.add k, Ev.startFetch k] }
  | Step.cleanup =>
    match s.activeRun with
    | none => s
    | some k =>
      { s with removes := s.removes + 1,
               activeRun := none,
               flags := fun j => if j = k then false else s.flags j,
               log := s.log ++ [Ev.remove k] }
  | Step.resolve k u =>
    if s.pending k then
      if s.flags k then
        { s with oidc := loadUser u s.oidc,
                 pending := fun j => if j = k then false else s.pending j,
                 log := s.log ++ [Ev.write k u] }
      else
        { s with pending := fun j => if j = k then false else s.pending j,
                 log := s.log ++ [Ev.skip k] }
    else s
  | Step.reject k _ =>
    if s.pending k then
      { s with pending := fun j => if j = k then false else s.pending j,
               log := s.log ++ [Ev.rejected k] }
    else s

/-- A whole schedule from the freshly mounted provider. -/
def runSched (steps : List Step) : Sys :=
  steps.foldl exec initSys

/-- The lifecycle invariant behind C5: adds and removes are balanced up to the
one live subscription of the active run, and any still-pending fetch belongs
to a run whose `addOidcEvents()` call is already in the log (the add happened
before the fetch can resolve). -/
def SubInv (s : Sys) : Prop :=
  s.adds = s.removes + (if s.activeRun.isSome then 1 else 0) ∧
  ∀ k, s.pending k = true → Ev.add k ∈ s.log

theorem subInv_initSys : SubInv initSys := by
  constructor
  · rfl
  · intro k h
    simp [initSys] at h

theorem subInv_exec (s : Sys) (a : Step) (h : SubInv s) : SubInv (exec s a) := by
  obtain ⟨hbal, hpend⟩ := h
  cases a with
  | runEffect =>
    cases hact : s.activeRun with
    | some k => simpa [exec, hact] using ⟨hbal, hpend⟩
    | none =>
      refine ⟨?_, ?_⟩
      · simp [exec, hact]
        simp [hact] at hbal
        omega
      · intro k hk
        simp [exec, hact] at hk ⊢
        by_cases hkk : k = s.nextRun
        · simp [hkk]
        · simp [hkk] at hk
          exact Or.inl (hpend k hk)
  | cleanup =>
    cases hact : s.activeRun with
    | none => simpa [exec, hact] using ⟨hbal, hpend⟩
    | some k =>
      refine ⟨?_, ?_⟩
      · simp [exec, hact]
        simp [hact] at hbal
        omega
      · intro j hj
        simp [exec, hact] at hj ⊢
        exact hpend j hj
  | resolve k u =>
    by_cases hp : s.pending k = true
    · by_cases hf : s.flags k = true
      · refine ⟨by simp [exec, hp, hf, hbal], ?_⟩
        intro j hj
        simp [exec, hp, hf] at hj ⊢
        by_cases hjk : j = k
        · simp [hjk] at hj
        · simp [hjk] at hj
          exact hpend j hj
      · refine ⟨by simp [exec, hp, hf, hbal], ?_⟩
        intro j hj
        simp [exec, hp, hf] at hj ⊢
        by_cases hjk : j = k
        · simp [hjk] at hj
        · simp [hjk] at hj
          exact hpend j hj
    · simpa [exec, hp] using ⟨hbal, hpend⟩
  | reject k m =>
    by_cases hp : s.pending k = true
    · refine ⟨by simp [exec, hp, hbal], ?_⟩
      intro j hj
      simp [exec, hp] at hj ⊢
      by_cases hjk : j = k
      · simp [hjk] at hj
      · simp [hjk] at hj
        exact hpend j hj
    · simpa [exec, hp] using ⟨hbal, hpend⟩

theorem subInv_foldl (steps : List Step) :
    ∀ s : Sys, SubInv s → SubInv (steps.foldl exec s) := by
  induction steps with
  | nil => intro s h; simpa using h
  | cons a as ih => intro s h; exact ih (exec s a) (subInv_exec s a h)

theorem subInv_runSched (steps : List Step) : SubInv (runSched steps) :=
  subInv_foldl steps initSys subInv_initSys

/-- Claim C5: across every schedule, `addOidcEvents` and `removeOidcEvents`
calls are balanced up to the single live subscription of the active effect
run (so repeated mount/unmount cycles never duplicate a subscription); any
fetch that can still resolve belongs to a run whose add call already
happened; and an unmount performs exactly one remove and no add. -/
theorem subscription_add_remove_discipline (steps : List Step) :
    ((runSched steps).adds =
      (runSched steps).removes +
        (if (runSched steps).activeRun.isSome then 1 else 0)) ∧
    (∀ k, (runSched steps).pending k = true → Ev.add k ∈ (runSched steps).log) ∧
    (∀ k, (runSched steps).activeRun = some k →
      (exec (runSched steps) Step.cleanup).removes = (runSched steps).removes + 1 ∧
      (exec (runSched steps) Step.cleanup).activeRun = none ∧
      (exec (runSched steps) Step.cleanup).adds = (runSched steps).adds) := by
  refine ⟨(subInv_runSched steps).1, (subInv_runSched steps).2, ?_⟩
  intro k hk
  refine ⟨?_, ?_, ?_⟩ <;> simp [exec, hk]

/-- Witness for C5: after a single mount, one add and no remove happened, the
add for run 0 is in the log while run 0's fetch is pending, and unmounting
performs exactly one remove. -/
theorem subscription_add_remove_discipline_witness :
    ((runSched [Step.runEffect]).adds =
      (runSched [Step.runEffect]).removes +
        (if (runSched [Step.runEffect]).activeRun.isSome then 1 else 0)) ∧
    Ev.add 0 ∈ (runSched [Step.runEffect]).log ∧
    (exec (runSched [Step.runEffect]) Step.cleanup).removes =
      (runSched [Step.runEffect]).removes + 1 :=
  ⟨(subscription_add_remove_discipline [Step.runEffect]).1,
   (subscription_add_remove_discipline [Step.runEffect]).2.1 0 rfl,
   ((subscription_add_remove_discipline [Step.runEffect]).2.2 0 rfl).1⟩

/-- Claim C3: when run `k`'s fetch resolves with user `u` while the provider
is still mounted (run `k`'s mount flag is still true), the continuation
applies `loadUser u`, leaving `isAuthenticated = (u != null)` and
`isLoading = false` (and the user stored). -/
theorem resolved_user_sets_authenticated (s : Sys) (k : Nat) (u : Option User)
    (hp : s.pending k = true) (hm : s.flags k = true) :
    (exec s (Step.resolve k u)).oidc = loadUser u s.oidc ∧
    (exec s (Step.resolve k u)).oidc.isAuthenticated = u.isSome ∧
    (exec s (Step.resolve k u)).oidc.isLoading = false ∧
    (exec s (Step.resolve k u)).oidc.user = u := by
  simp [exec, hp, hm, loadUser]

/-- Witness for C3: resolving the mount fetch with the user "alice" right
after mounting yields an authenticated, non-loading state holding that user;
resolving it with a null user yields a non-authenticated, non-loading state. -/
theorem resolved_user_sets_authenticated_witness :
    ((exec (runSched [Step.runEffect]) (Step.resolve 0 (some "alice"))).oidc.isAuthenticated
        = true ∧
      (exec (runSched [Step.runEffect]) (Step.resolve 0 (some "alice"))).oidc.isLoading
        = false) ∧
    ((exec (runSched [Step.runEffect]) (Step.resolve 0 none)).oidc.isAuthenticated
        = false ∧
      (exec (runSched [Step.runEffect]) (Step.resolve 0 none)).oidc.isLoading
        = false) :=
  have h1 := resolved_user_sets_authenticated (runSched [Step.runEffect]) 0
    (some "alice") rfl rfl
  have h2 := resolved_user_sets_authenticated (runSched [Step.runEffect]) 0
    none rfl rfl
  ⟨⟨h1.2.1, h1.2.2.1⟩, ⟨h2.2.1, h2.2.2.1⟩⟩

/-- If a run's mount flag is false, the fetch continuation writes nothing:
the `if (mount)` guard fails (or the fetch was already consumed). -/
theorem resolve_without_flag_preserves_oidc (s : Sys) (k : Nat) (u : Option User)
    (hf : s.flags k = false) :
    (exec s (Step.resolve k u)).oidc = s.oidc := by
  by_cases hp : s.pending k = true
  · simp [exec, hp, hf]
  · simp [exec, hp]

/-- Claim C4: when the provider unmounts before the initial fetch resolves,
the effect cleanup sets the run's mount flag false (and itself leaves the
hook state untouched), so a later resolution of that run's fetch performs no
state update: no `loadUser` write happens after unmount. -/
theorem no_state_update_after_unmount (s : Sys) (k : Nat) (u : Option User)
    (h : s.activeRun = some k) :
    (exec s Step.cleanup).flags k = false ∧
    (exec (exec s Step.cleanup) (Step.resolve k u)).oidc = (exec s Step.cleanup).oidc ∧
    (exec s Step.cleanup).oidc = s.oidc := by
  have hf : (exec s Step.cleanup).flags k = false := by simp [exec, h]
  exact ⟨hf, resolve_without_flag_preserves_oidc _ k u hf, by simp [exec, h]⟩

/-- Witness for C4: mount, unmount, then let the fetch resolve with a user —
the hook state does not change at the late resolution. -/
theorem no_state_update_after_unmount_witness :
    (exec (runSched [Step.runEffect]) Step.cleanup).flags 0 = false ∧
    (exec (exec (runSched [Step.runEffect]) Step.cleanup)
        (Step.resolve 0 (some "late"))).oidc =
      (exec (runSched [Step.runEffect]) Step.cleanup).oidc :=
  have h := no_state_update_after_unmount (runSched [Step.runEffect]) 0
    (some "late") rfl
  ⟨h.1, h.2.1⟩

/-- No scheduler step ever changes the `error` field: the mount effect and
the fetch continuation contain no `onError` call and no rejection handler. -/
theorem exec_preserves_error (s : Sys) (a : Step) :
    (exec s a).oidc.error = s.oidc.error := by
  cases a with
  | runEffect => cases hact : s.activeRun <;> simp [exec, hact, onLoading]
  | cleanup => cases hact : s.activeRun <;> simp [exec, hact]
  | resolve k u =>
    by_cases hp : s.pending k = true
    · by_cases hf : s.flags k = true <;> simp [exec, hp, hf, loadUser]
    · simp [exec, hp]
  | reject k m =>
    by_cases hp : s.pending k = true <;> simp [exec, hp]

theorem foldl_exec_preserves_error (steps : List Step) :
    ∀ s : Sys, (steps.foldl exec s).oidc.error = s.oidc.error := by
  induction steps with
  | nil => intro s; rfl
  | cons a as ih => intro s; rw [List.foldl_cons, ih, exec_preserves_error]

/-- Claim C7: a rejection of the mount-time `getUser()` fetch is silently
ignored — the `.then` call attaches no rejection handler, so the whole system
state (in particular the `error` field) is exactly unchanged; moreover no
schedule of mount/unmount/fetch outcomes can ever make the effect path set an
error, so `onError` is never invoked from the initial fetch. -/
theorem initial_fetch_rejection_silently_ignored (s : Sys) (k : Nat) (m : String)
    (steps : List Step) :
    (exec s (Step.reject k m)).oidc = s.oidc ∧
    (exec s (Step.reject k m)).oidc.error = s.oidc.error ∧
    (runSched steps).oidc.error = none := by
  refine ⟨?_, exec_preserves_error s (Step.reject k m), ?_⟩
  · by_cases hp : s.pending k = true <;> simp [exec, hp]
  · rw [runSched, foldl_exec_preserves_error]
    rfl

/-!
## The render body

Every render of `AuthenticationProviderInt` executes the component body:
line 107 calls `authenticationServiceInt(configuration, UserStore)` — in the
render body, with no memoisation — and the returned handle is what the
effect, the login/logout callbacks and the context value of that render close
over; line 178 passes `configuration={configuration}` to `OidcRoutesInt`.

`authenticationServiceInt` is an injectable JavaScript function and may be
stateful (the default `authenticationService` caches its handle), so a
factory is modelled as a function of its invocation ordinal as well as its
arguments.
-/

/-- The OIDC client settings object, passed around opaquely. -/
abbrev Configuration := String

/-- The optional `UserStore` override, passed around opaquely. -/
abbrev StoreT := String

/-- A user-manager factory: invocation ordinal, configuration and store to a
handle.  The ordinal models the factory's own internal state across calls. -/
abbrev UMFactory := Nat → Configuration → StoreT → UserManagerHandle

/-- What one execution of the component body produces: how many times it
invoked the factory, the argument it passed, the handle it obtained, the
handle each consumer (effect, callbacks, context value) closes over, and the
`configuration` prop handed to the routing component. -/
structure RenderResult where
  factoryCalls : Nat
  factoryCfgArg : Configuration
  handle : UserManagerHandle
  umEffect : UserManagerHandle
  umCallbacks : UserManagerHandle
  umContext : UserManagerHandle
  routesConfiguration : Configuration
deriving DecidableEq, Repr

/-- The `i`-th render of the provider (source lines 106-183): one factory
call with the unmodified `configuration`, whose handle is shared by the
effect, the callbacks and the context value of this render; `OidcRoutesInt`
receives the unmodified `configuration`. -/
def renderBody (factory : UMFactory) (cfg : Configuration) (store : StoreT)
    (i : Nat) : RenderResult :=
  let um := factory i cfg store
  { factoryCalls := 1, factoryCfgArg := cfg, handle := um,
    umEffect := um, umCallbacks := um, umContext := um,
    routesConfiguration := cfg }

/-- `n` successive renders of one provider instance. -/
def renderSeq (factory : UMFactory) (cfg : Configuration) (store : StoreT)
    (n : Nat) : List RenderResult :=
  (List.range n).map (renderBody factory cfg store)

/-- Total number of factory invocations over a sequence of renders. -/
def totalFactoryCalls (rs : List RenderResult) : Nat :=
  (rs.map RenderResult.factoryCalls).sum

theorem totalFactoryCalls_renderSeq (factory : UMFactory) (cfg : Configuration)
    (store : StoreT) (n : Nat) :
    totalFactoryCalls (renderSeq factory cfg store n) = n := by
  induction n with
  | zero => rfl
  | succ m ih =>
    simp only [renderSeq, totalFactoryCalls, List.range_succ, List.map_append,
      List.sum_append, List.map_cons, List.map_nil, List.sum_cons, List.sum_nil,
      renderBody] at ih ⊢
    omega

/-- Claim C9: on every render, the identical unmodified configuration value
is passed both to the user-manager factory and as the `configuration` prop of
the rendered routing component. -/
theorem configuration_passed_unmodified (factory : UMFactory)
    (cfg : Configuration) (store : StoreT) (i : Nat) :
    (renderBody factory cfg store i).factoryCfgArg = cfg ∧
    (renderBody factory cfg store i).routesConfiguration = cfg ∧
    (renderBody factory cfg store i).factoryCfgArg =
      (renderBody factory cfg store i).routesConfiguration :=
  ⟨rfl, rfl, rfl⟩

/-- A factory returning a fresh handle on each invocation, as an injected
test double may do: nothing in the provider prevents it. -/
def freshFactory : UMFactory := fun i _ _ => ⟨i⟩

/-- Counterexample to claim C8: over two renders of one provider instance the
factory is invoked twice — not once per provider instance — and with a
fresh-handle factory the two renders hold two distinct handles. -/
theorem factory_invoked_each_render_counterexample :
    totalFactoryCalls (renderSeq freshFactory "cfg" "store" 2) = 2 ∧
    (renderSeq freshFactory "cfg" "store" 2).map RenderResult.handle =
      [⟨0⟩, ⟨1⟩] ∧
    UserManagerHandle.mk 0 ≠ UserManagerHandle.mk 1 := by
  refine ⟨?_, ?_, ?_⟩ <;> decide

/-- Claim C8 as amended: the user-manager factory is invoked once per render
(`n` invocations over `n` renders, not once per provider instance); within
each render the handle returned by that render's invocation is the one used
by the effect, the callbacks and the context value; and a single handle
exists for the provider's whole lifetime exactly when the factory returns the
same handle on every invocation (as the default memoising
`authenticationService` does). -/
theorem factory_invoked_once_per_render (factory : UMFactory)
    (cfg : Configuration) (store : StoreT) (n : Nat) (i : Nat) :
    totalFactoryCalls (renderSeq factory cfg store n) = n ∧
    (renderBody factory cfg store i).factoryCalls = 1 ∧
    (renderBody factory cfg store i).handle = factory i cfg store ∧
    (renderBody factory cfg store i).umEffect = (renderBody factory cfg store i).handle ∧
    (renderBody factory cfg store i).umCallbacks = (renderBody factory cfg store i).handle ∧
    (renderBody factory cfg store i).umContext = (renderBody factory cfg store i).handle ∧
    (∀ h : UserManagerHandle, (∀ j : Nat, factory j cfg store = h) →
      (renderSeq factory cfg store n).map RenderResult.handle = List.replicate n h) := by
  refine ⟨totalFactoryCalls_renderSeq factory cfg store n, rfl, rfl, rfl, rfl, rfl, ?_⟩
  intro h hconst
  refine List.eq_replicate_iff.2 ⟨by simp [renderSeq], ?_⟩
  intro b hb
  simp only [renderSeq, List.map_map, List.mem_map, List.mem_range] at hb
  obtain ⟨j, _, rfl⟩ := hb
  simpa [renderBody] using hconst j

/-- Witness for C8 as amended: with a constant factory, two renders invoke
the factory twice and both renders hold the same single handle. -/
theorem factory_invoked_once_per_render_witness :
    totalFactoryCalls (renderSeq (fun _ _ _ => ⟨7⟩) "cfg" "store" 2) = 2 ∧
    (renderSeq (fun _ _ _ => ⟨7⟩) "cfg" "store" 2).map RenderResult.handle =
      List.replicate 2 ⟨7⟩ :=
  ⟨(factory_invoked_once_per_render (fun _ _ _ => ⟨7⟩) "cfg" "store" 2 0).1,
   (factory_invoked_once_per_render (fun _ _ _ => ⟨7⟩) "cfg" "store" 2 0).2.2.2.2.2.2
     ⟨7⟩ (fun _ => rfl)⟩
